import Mathlib

/-!
Verification development for `scripts/pst2t_summarize.py` (PathSeq-T2T
summarize step).

The Python source is shallowly embedded: files are modelled as lists of
lines (`List String`, lines carry no trailing newline), tab-separated
tables as lists of cell rows, pandas Series as association lists
`List (String × ℤ)`, and all float arithmetic as exact arithmetic over `ℚ`.
A file argument of type `Option (List String)` is `none` when the file is
absent or unreadable.  Python exceptions are modelled with `Except PyErr`.

Modelling notes, stated once here:
* `pd.to_numeric(errors='coerce')` is modelled by `parse_num`, a decimal
  parser covering optional sign and fractional part; scientific notation
  and special float spellings, which no claim exercises, are out of scope
  and parse as `none` (hence coerce to the fill value, as a real parse
  failure would).
* `pandas.DataFrame.groupby(...).sum()` sorts group keys; the claims under
  verification are insensitive to row order, so grouping is modelled with
  first-key-occurrence order (`List.dedup` of the key column).
* `DataFrame.round(4)` / numpy rounding is modelled as exact decimal
  round-half-to-even on `ℚ`.
* `str.isdigit` / character classes are modelled over ASCII digits.
* `DataFrame.shape[1]` of a parsed table is modelled as the maximum row
  width (`max_cols`); for the rectangular tables the claims exercise this
  coincides with pandas' column count.
* String primitives are re-implemented over `List Char` (`py_split_on`,
  `py_trim`, `py_to_nat?`, ...) because the byte-position recursion of the
  core `String` functions does not reduce in the kernel; `Char.ofNat 9`,
  `35`, `43`, `45`, `46`, `58` are tab, hash, plus, minus, dot, colon.
-/

attribute [local semireducible] Rat.add Rat.mul Rat.sub Rat.inv Rat.ofScientific

/-- Does `l` start with the pattern `pat`? (character-list level). -/
def chars_start : List Char → List Char → Bool
  | _, [] => true
  | [], _ :: _ => false
  | a :: as, b :: bs => a == b && chars_start as bs

/-- Does `l` contain `pat` as a contiguous run? (character-list level). -/
def chars_contain : List Char → List Char → Bool
  | [], pat => pat.isEmpty
  | l@(_ :: t), pat => chars_start l pat || chars_contain t pat

/-- Python `needle in hay` on strings. -/
def str_contains (hay needle : String) : Bool := chars_contain hay.toList needle.toList

/-- Split a character list at every occurrence of the separator character.
Structurally recursive stand-in for `String.splitOn` with a one-character
separator (the only form the source uses), kept kernel-reducible. -/
def split_char (c : Char) : List Char → List (List Char)
  | [] => [[]]
  | a :: t =>
    if a == c then [] :: split_char c t
    else
      match split_char c t with
      | [] => [[a]]
      | h :: rest => (a :: h) :: rest

/-- Trim leading and trailing whitespace from a character list. -/
def trim_chars_list (l : List Char) : List Char :=
  ((l.dropWhile (fun c => c.isWhitespace)).reverse.dropWhile (fun c => c.isWhitespace)).reverse

/-- Python `s.strip()` (no argument): trim surrounding whitespace. -/
def py_trim (s : String) : String := String.mk (trim_chars_list s.toList)

/-- Python-style split on a single separator character. -/
def py_split_on (s : String) (c : Char) : List String := (split_char c s.toList).map String.mk

/-- Nonempty and all characters are digits (character-list level). -/
def list_isdigit (l : List Char) : Bool := !l.isEmpty && l.all (fun c => c.isDigit)

/-- Python `s.isdigit()`: nonempty and all characters are digits. -/
def py_isdigit (s : String) : Bool := list_isdigit s.toList

/-- Numeric value of a digit list (most significant first). -/
def digits_value (l : List Char) : ℕ := l.foldl (fun acc c => 10 * acc + (c.toNat - 48)) 0

/-- Python `int(str)` applied to a digit string: `some` exactly when the
string is a nonempty digit run. Kernel-reducible stand-in for
`String.toNat?`, whose byte-position recursion does not reduce. -/
def py_to_nat? (s : String) : Option ℕ :=
  if list_isdigit s.toList then some (digits_value s.toList) else none

/-- Python `s.startswith(p)`. -/
def py_starts_with (s p : String) : Bool := chars_start s.toList p.toList

/-- Model of `pd.to_numeric(cell, errors='coerce')` on one cell: `none` is
the NaN outcome of an unparseable cell.  Handles optional sign and an
optional decimal point. -/
def parse_num (s : String) : Option ℚ :=
  let t := trim_chars_list s.toList
  let sgn : ℚ := if chars_start t [Char.ofNat 45] then -1 else 1
  let body := if chars_start t [Char.ofNat 45] || chars_start t [Char.ofNat 43]
    then t.drop 1 else t
  match split_char (Char.ofNat 46) body with
  | [a] => if list_isdigit a then some (sgn * (digits_value a : ℚ)) else none
  | [a, b] =>
      if a.all (fun c => c.isDigit) && b.all (fun c => c.isDigit) && (!a.isEmpty || !b.isEmpty)
      then
        some (sgn * ((digits_value a : ℚ) + (digits_value b : ℚ) / (10 : ℚ) ^ b.length))
      else none
  | _ => none

/-- Coercion used for numeric table columns: `to_numeric(errors='coerce').fillna(0)`. -/
def coerce_zero (s : String) : ℚ := (parse_num s).getD 0

/-- Python `int(str)` on a trimmed string: optional sign plus digits; `none`
models a `ValueError`. -/
def py_int_of_string (s : String) : Option ℤ :=
  let t := trim_chars_list s.toList
  if chars_start t [Char.ofNat 45] then
    (if list_isdigit (t.drop 1) then some (-(digits_value (t.drop 1) : ℤ)) else none)
  else if chars_start t [Char.ofNat 43] then
    (if list_isdigit (t.drop 1) then some ((digits_value (t.drop 1) : ℤ)) else none)
  else (if list_isdigit t then some ((digits_value t : ℤ)) else none)

/-- Python `int(float)`: truncation toward zero, as used on pandas sums.
(`Rat.floor` rather than `Int.floor` keeps the definition kernel-reducible.) -/
def rat_trunc (q : ℚ) : ℤ := if 0 ≤ q then Rat.floor q else -(Rat.floor (-q))

/-- Round-half-to-even to an integer (numpy rounding on exact rationals).
(`Rat.floor` rather than `Int.floor` keeps the definition kernel-reducible.) -/
def round_half_even (q : ℚ) : ℤ :=
  if q - (Rat.floor q : ℚ) < 1/2 then Rat.floor q
  else if (1 : ℚ)/2 < q - (Rat.floor q : ℚ) then Rat.floor q + 1
  else if Rat.floor q % 2 = 0 then Rat.floor q else Rat.floor q + 1

/-- `Series.round(4)`: round to 4 decimal places. -/
def round4 (q : ℚ) : ℚ := ((round_half_even (q * 10000) : ℤ) : ℚ) / 10000

/-- Python `str.strip(chars)`: drop the given characters from both ends. -/
def strip_chars (s : String) (cs : List Char) : String :=
  let l := s.toList.dropWhile (fun c => cs.contains c)
  String.mk ((l.reverse.dropWhile (fun c => cs.contains c)).reverse)

/-- Whitespace-delimited words of a character list (accumulator holds the
current word reversed). -/
def words_aux : List Char → List Char → List (List Char)
  | [], acc => if acc.isEmpty then [] else [acc.reverse]
  | c :: t, acc =>
      if c.isWhitespace then
        (if acc.isEmpty then words_aux t [] else acc.reverse :: words_aux t [])
      else words_aux t (c :: acc)

/-- Python `str.split()` with no argument: split on whitespace runs,
dropping empty pieces. -/
def py_split_ws (s : String) : List String := (words_aux s.toList []).map String.mk

/-! ## Flagstat Extractor (`parse_flagstat_primary`) -/

/-- Body of the line loop of `parse_flagstat_primary`: scan lines in order;
on a line whose third tab field strips to `primary`, return its first field
if that is a digit string, otherwise keep scanning. -/
def flagstat_scan : List String → Option ℕ
  | [] => none
  | line :: rest =>
    let parts := py_split_on line (Char.ofNat 9)
    if 3 ≤ parts.length ∧ py_trim (parts.getD 2 "") = "primary" then
      (if py_isdigit (py_trim (parts.getD 0 "")) then py_to_nat? (py_trim (parts.getD 0 ""))
       else flagstat_scan rest)
    else flagstat_scan rest

/-- `parse_flagstat_primary`: `none` input models an unreadable or absent
file (the `except` branch returns `None`). -/
def parse_flagstat_primary (file : Option (List String)) : Option ℕ :=
  file.bind flagstat_scan

/-- The C6 claim's own words, for comparison with the code: take the first
line whose third field strips to `primary`; if its first field is not a
well-formed non-negative integer, the result is absent. -/
def flagstat_claim_spec (lines : List String) : Option ℕ :=
  match lines.find? (fun l =>
      decide (3 ≤ (py_split_on l (Char.ofNat 9)).length
        ∧ py_trim ((py_split_on l (Char.ofNat 9)).getD 2 "") = "primary")) with
  | none => none
  | some l =>
      let val := py_trim ((py_split_on l (Char.ofNat 9)).getD 0 "")
      if py_isdigit val then py_to_nat? val else none

/-- Value contributed by a single line under the amended C6 reading: the
line must both be `primary`-marked and carry a digit-string first field. -/
def flagstat_line_value (line : String) : Option ℕ :=
  let parts := py_split_on line (Char.ofNat 9)
  if 3 ≤ parts.length ∧ py_trim (parts.getD 2 "") = "primary"
      ∧ py_isdigit (py_trim (parts.getD 0 ""))
  then py_to_nat? (py_trim (parts.getD 0 ""))
  else none

/-! ## Filtering Summary Builder -/

/-- `pd.Series.get(key)` on an association-list model of a Series. -/
def series_get (l : List (String × ℤ)) (k : String) : Option ℤ :=
  (l.find? (fun p => p.1 == k)).map (fun p => p.2)

/-- Inputs of the filtering stage for one sample.  Each flagstat slot is the
line list of the corresponding file, `none` when the file is absent or
unreadable.  The two PathSeq metrics slots hold the Series produced by
`read_pathseq_metrics_table` (`none` models its `None` result); that
header-hunting parser is pandas plumbing no claim constrains, so its output
is the modelling boundary here. -/
structure FilterInputs where
  flagstat : Option (List String)
  t2t_aln_paired : Option (List String)
  t2t_unaln_paired : Option (List String)
  t2t_aln_unpaired : Option (List String)
  t2t_unaln_unpaired : Option (List String)
  unaligned_metrics : Option (List (String × ℤ))
  excluded_metrics : Option (List (String × ℤ))
deriving DecidableEq

/-- One entry of the `collect_primary_reads` dict: present only when the
file exists and `parse_flagstat_primary` succeeded. -/
def flagstat_entry (key : String) (slot : Option (List String)) : List (String × ℤ) :=
  match parse_flagstat_primary slot with
  | some v => [(key, (v : ℤ))]
  | none => []

/-- `collect_primary_reads`: the five flagstat keys in insertion order, then
the always-present derived total (absent operands read as 0). -/
def collect_primary_reads (fi : FilterInputs) : List (String × ℤ) :=
  flagstat_entry "PRIMARY_READS" fi.flagstat
  ++ flagstat_entry "T2T_ALIGNED_PAIRED_PRIMARY" fi.t2t_aln_paired
  ++ flagstat_entry "T2T_UNALIGNED_PAIRED_PRIMARY" fi.t2t_unaln_paired
  ++ flagstat_entry "T2T_ALIGNED_UNPAIRED_PRIMARY" fi.t2t_aln_unpaired
  ++ flagstat_entry "T2T_UNALIGNED_UNPAIRED_PRIMARY" fi.t2t_unaln_unpaired
  ++ [("T2T_UNALIGNED_TOTAL_READS",
        ((parse_flagstat_primary fi.t2t_unaln_paired).map (fun n => (n : ℤ))).getD 0
        + ((parse_flagstat_primary fi.t2t_unaln_unpaired).map (fun n => (n : ℤ))).getD 0)]

def PATHSEQ_COLS : List String :=
  ["PRIMARY_READS",
   "READS_AFTER_PREALIGNED_HOST_FILTER",
   "READS_AFTER_QUALITY_AND_COMPLEXITY_FILTER",
   "READS_AFTER_HOST_FILTER",
   "READS_AFTER_DEDUPLICATION",
   "FINAL_PAIRED_READS",
   "FINAL_UNPAIRED_READS",
   "FINAL_TOTAL_READS"]

/-- `collect_pathseq_metrics`: per-kind eight counters (absent column reads
as 0, absent file as an empty Series), then the QCFILTER elementwise sums.
Key insertion order follows the source's loops. -/
def collect_pathseq_metrics (fi : FilterInputs) : List (String × ℤ) :=
  let su := fi.unaligned_metrics.getD []
  let se := fi.excluded_metrics.getD []
  (PATHSEQ_COLS.map (fun c => ("UNALIGNED_" ++ c, (series_get su c).getD 0)))
  ++ (PATHSEQ_COLS.map (fun c => ("EXCLUDED_" ++ c, (series_get se c).getD 0)))
  ++ (PATHSEQ_COLS.map (fun c =>
        ("QCFILTER_" ++ c, (series_get su c).getD 0 + (series_get se c).getD 0)))

def FILTER_SUMMARY_ORDER : List String :=
  ["PRIMARY_READS"]
  ++ (["QCFILTER", "UNALIGNED", "EXCLUDED"].flatMap
        (fun kind => PATHSEQ_COLS.map (fun col => kind ++ "_" ++ col)))
  ++ ["T2T_UNALIGNED_TOTAL_READS", "T2T_UNALIGNED_PAIRED_PRIMARY", "T2T_UNALIGNED_UNPAIRED_PRIMARY"]

/-- `filtering_summary`: concatenate the two Series and reindex on
`FILTER_SUMMARY_ORDER`, filling missing keys with 0. -/
def filtering_summary (fi : FilterInputs) : List (String × ℤ) :=
  let merged := collect_primary_reads fi ++ collect_pathseq_metrics fi
  FILTER_SUMMARY_ORDER.map (fun k => (k, (series_get merged k).getD 0))

/-- A sample with no filtering inputs at all. -/
def empty_filter_inputs : FilterInputs :=
  ⟨none, none, none, none, none, none, none⟩

deriving instance DecidableEq for Except

/-! ## Python exception model -/

/-- The exception classes the script distinguishes: `FileNotFoundError` is
caught in `summarize_classification`; `ValueError` / `RuntimeError` are
caught only by the top-level handler (FATAL, exit 1) or, inside
`write_normalized_tables`, per classifier. -/
inductive PyErr where
  | fileNotFound : PyErr
  | valueError : String → PyErr
  | runtimeError : String → PyErr
deriving DecidableEq

/-! ## First-classifier (Kraken2) report loading and merge -/

/-- One parsed Kraken2 report row (after the per-column coercions of
`load_kraken_report`). -/
structure KRow where
  pct_reads : ℚ
  reads_clade : ℚ
  reads_taxon : ℚ
  minimizers_count : ℚ
  minimizers_distinct : ℚ
  rank : String
  tax_id : ℚ
  name : String
deriving DecidableEq

/-- A grouped row after `groupby(['name','tax_id','rank']).sum()`. -/
structure KGroup where
  name : String
  tax_id : ℚ
  rank : String
  reads_clade : ℚ
  reads_taxon : ℚ
  minimizers_count : ℚ
  minimizers_distinct : ℚ
deriving DecidableEq

/-- A row of the merged table after the final column selection
`df[['pct_reads','reads_clade','reads_taxon','rank','tax_id','name']]`. -/
structure KMergedRow where
  pct_reads : ℚ
  reads_clade : ℚ
  reads_taxon : ℚ
  rank : String
  tax_id : ℚ
  name : String
deriving DecidableEq

/-- Cell rows of a tab-separated file as pandas reads it with `header=None`
(blank lines skipped). -/
def kraken_table_rows (lines : List String) : List (List String) :=
  (lines.filter (fun l => l ≠ "")).map (fun l => py_split_on l (Char.ofNat 9))

/-- The column count pandas reports for a cell-row table. -/
def max_cols (table : List (List String)) : ℕ :=
  (table.map (fun r => r.length)).foldr max 0

/-- Parse one Kraken2 row: first 8 positional columns, numeric coercion
with 0 fill, name stripped. -/
def parse_kraken_row (cells : List String) : KRow :=
  { pct_reads := coerce_zero (cells.getD 0 "")
    reads_clade := coerce_zero (cells.getD 1 "")
    reads_taxon := coerce_zero (cells.getD 2 "")
    minimizers_count := coerce_zero (cells.getD 3 "")
    minimizers_distinct := coerce_zero (cells.getD 4 "")
    rank := cells.getD 5 ""
    tax_id := coerce_zero (cells.getD 6 "")
    name := py_trim (cells.getD 7 "") }

/-- `load_kraken_report`: an empty file (size 0) parses to zero rows; a file
whose table has fewer than 8 columns raises `ValueError`; a non-empty file
with no parseable rows raises pandas `EmptyDataError` (a `ValueError`). -/
def load_kraken_report (lines : List String) : Except PyErr (List KRow) :=
  if lines = [] then .ok []
  else
    let table := kraken_table_rows lines
    if table = [] then .error (.valueError "No columns to parse from file")
    else if max_cols table < 8 then .error (.valueError "Malformed Kraken2 report")
    else .ok (table.map parse_kraken_row)

/-- The groupby key (`name`, `tax_id`, `rank`). -/
def row_key (r : KRow) : String × ℚ × String := (r.name, r.tax_id, r.rank)

/-- Key of a grouped row. -/
def group_key (g : KGroup) : String × ℚ × String := (g.name, g.tax_id, g.rank)

/-- Key of a merged-output row. -/
def merged_key (r : KMergedRow) : String × ℚ × String := (r.name, r.tax_id, r.rank)

/-- Sum of `reads_clade` over the rows with a given key. -/
def clade_sum (rows : List KRow) (k : String × ℚ × String) : ℚ :=
  ((rows.filter (fun r => decide (row_key r = k))).map (fun r => r.reads_clade)).sum

/-- Sum of `reads_taxon` over the rows with a given key. -/
def taxon_sum (rows : List KRow) (k : String × ℚ × String) : ℚ :=
  ((rows.filter (fun r => decide (row_key r = k))).map (fun r => r.reads_taxon)).sum

/-- Sum of `minimizers_count` over the rows with a given key. -/
def minim_count_sum (rows : List KRow) (k : String × ℚ × String) : ℚ :=
  ((rows.filter (fun r => decide (row_key r = k))).map (fun r => r.minimizers_count)).sum

/-- Sum of `minimizers_distinct` over the rows with a given key. -/
def minim_distinct_sum (rows : List KRow) (k : String × ℚ × String) : ℚ :=
  ((rows.filter (fun r => decide (row_key r = k))).map (fun r => r.minimizers_distinct)).sum

/-- The grouped row built for one key. -/
def group_row (rows : List KRow) (k : String × ℚ × String) : KGroup :=
  { name := k.1, tax_id := k.2.1, rank := k.2.2,
    reads_clade := clade_sum rows k, reads_taxon := taxon_sum rows k,
    minimizers_count := minim_count_sum rows k,
    minimizers_distinct := minim_distinct_sum rows k }

/-- `groupby(['name','tax_id','rank'], as_index=False)[...].sum()`: one row
per distinct key (key order modelled by `dedup`, see header note). -/
def group_kraken (rows : List KRow) : List KGroup :=
  ((rows.map row_key).dedup).map (group_row rows)

/-- Doubling of `reads_clade` and `reads_taxon` applied to each present file. -/
def double_counts (rows : List KRow) : List KRow :=
  rows.map (fun r => { r with reads_clade := 2 * r.reads_clade, reads_taxon := 2 * r.reads_taxon })

/-- `total_reads`: sum of `reads_clade` over grouped rows with `tax_id` 0 or 1. -/
def kraken_denominator (gs : List KGroup) : ℚ :=
  ((gs.filter (fun g => decide (g.tax_id = 0 ∨ g.tax_id = 1))).map (fun g => g.reads_clade)).sum

/-- One output row of the percentage recomputation, given the denominator. -/
def pct_row (t : ℚ) (g : KGroup) : KMergedRow :=
  { pct_reads := if 0 < t then round4 (100 * g.reads_clade / t) else 0,
    reads_clade := g.reads_clade, reads_taxon := g.reads_taxon,
    rank := g.rank, tax_id := g.tax_id, name := g.name }

/-- Recompute `pct_reads` from the grouped counts and select the final
columns. -/
def assign_pct (gs : List KGroup) : List KMergedRow :=
  gs.map (pct_row (kraken_denominator gs))

/-- Core of `merge_kraken_reports` on already-loaded reports: `none` iff
neither file is present (the `FileNotFoundError` branch). -/
def merge_kraken_rows (po uo : Option (List KRow)) : Option (List KMergedRow) :=
  match po, uo with
  | none, none => none
  | _, _ => some (assign_pct (group_kraken
      (double_counts (po.getD []) ++ double_counts (uo.getD []))))

/-- Load an optional report file. -/
def load_opt (o : Option (List String)) : Except PyErr (Option (List KRow)) :=
  match o with
  | none => .ok none
  | some lines => (load_kraken_report lines).map some

/-- `merge_kraken_reports` at the file level. -/
def merge_kraken_reports (p u : Option (List String)) : Except PyErr (List KMergedRow) := do
  let po ← load_opt p
  let uo ← load_opt u
  match merge_kraken_rows po uo with
  | some out => .ok out
  | none => .error .fileNotFound

/-! ## Second-classifier (MetaPhlAn) parsing -/

/-- One parsed MetaPhlAn table row. -/
structure MRow where
  clade_name : String
  clade_taxid : ℤ
  relative_abundance : ℚ
  coverage : ℚ
  estimated_number_of_reads_from_the_clade : ℚ
deriving DecidableEq

/-- pandas `comment='#'`: the part of a line before its first `#`. -/
def mpa_strip_comment (l : String) : String := (py_split_on l (Char.ofNat 35)).headD ""

/-- Cell rows of the MetaPhlAn file as pandas reads it with `comment='#',
header=None` (comment tails removed, blank results skipped). -/
def mpa_table_rows (lines : List String) : List (List String) :=
  ((lines.map mpa_strip_comment).filter (fun l => l ≠ "")).map
    (fun l => py_split_on l (Char.ofNat 9))

/-- Parse one MetaPhlAn row: `clade_taxid` coerces with fill value -1 then
`astype(int)` truncation; the three remaining numeric columns fill with 0. -/
def parse_mpa_row (cells : List String) : MRow :=
  { clade_name := cells.getD 0 ""
    clade_taxid := rat_trunc ((parse_num (cells.getD 1 "")).getD (-1))
    relative_abundance := (parse_num (cells.getD 2 "")).getD 0
    coverage := (parse_num (cells.getD 3 "")).getD 0
    estimated_number_of_reads_from_the_clade := (parse_num (cells.getD 4 "")).getD 0 }

/-- `load_metaphlan_table`: fewer than 5 columns raises `RuntimeError`; an
empty parse raises pandas `EmptyDataError` (a `ValueError`); more than 5
columns makes the `df.columns = MPA_COLUMNS` assignment raise `ValueError`. -/
def load_metaphlan_table (lines : List String) : Except PyErr (List MRow) :=
  let table := mpa_table_rows lines
  if table = [] then .error (.valueError "No columns to parse from file")
  else if max_cols table < 5 then .error (.runtimeError "Unexpected MetaPhlAn format")
  else if 5 < max_cols table then .error (.valueError "Length mismatch")
  else .ok (table.map parse_mpa_row)

/-- The leading comment block of the MetaPhlAn file: the header-scan loop
breaks at the first line not starting with `#`. -/
def mpa_header_lines (lines : List String) : List String :=
  lines.takeWhile (fun l => py_starts_with l "#")

/-- The inner token scan of the `reads processed` line: first index `i` with
`parts[i].isdigit()`, `parts[i+1] == 'reads'`, `parts[i+2].startswith('processed')`.
CPython would raise `IndexError` when the digit token is one of the last two
tokens; the claims never reach that corner, which is modelled as no match. -/
def find_reads_processed : List String → Option ℕ
  | p0 :: p1 :: p2 :: rest =>
      if py_isdigit p0 && (p1 == "reads") && py_starts_with p2 "processed" then py_to_nat? p0
      else find_reads_processed (p1 :: p2 :: rest)
  | _ => none

/-- Fold step for `total_reads` over the header lines. -/
def scan_total_line (acc : ℤ) (l : String) : ℤ :=
  if str_contains l "reads processed" then
    match find_reads_processed (py_split_ws (strip_chars l ['#', ' ', '\n'])) with
    | some n => (n : ℤ)
    | none => acc
  else acc

/-- Fold step for `classified_reads` over the header lines. -/
def scan_classified_line (acc : ℤ) (l : String) : ℤ :=
  if py_starts_with l "#estimated_reads_mapped_to_known_clades:" then
    match py_int_of_string ((py_split_on l (Char.ofNat 58)).getD 1 "") with
    | some v => v
    | none => acc
  else acc

/-- `total_reads` scalar scanned from the header block (default 0). -/
def mpa_total_reads (lines : List String) : ℤ :=
  (mpa_header_lines lines).foldl scan_total_line 0

/-- `classified_reads` scalar scanned from the header block (default 0). -/
def mpa_classified_reads (lines : List String) : ℤ :=
  (mpa_header_lines lines).foldl scan_classified_line 0

/-! ## Classification summary and normalization -/

/-- Raw classifier outputs available for one sample; each slot is the line
list of the corresponding file, `none` when the file is absent. -/
structure ClassifInputs where
  paired : Option (List String)
  unpaired : Option (List String)
  mpa : Option (List String)
deriving DecidableEq

/-- Sum of `reads_clade` over merged rows selected by a predicate on `tax_id`. -/
def merged_clade_by (df : List KMergedRow) (p : ℚ → Prop) [DecidablePred p] : ℚ :=
  ((df.filter (fun r => decide (p r.tax_id))).map (fun r => r.reads_clade)).sum

/-- The Kraken2 block of `summarize_classification`: `FileNotFoundError` is
caught (`pass`), anything else propagates. -/
def kraken_summary_keys (r : Except PyErr (List KMergedRow)) : Except PyErr (List (String × ℤ)) :=
  match r with
  | .error .fileNotFound => .ok []
  | .error e => .error e
  | .ok df =>
      .ok [("TOTAL_READS_TESTED", rat_trunc (merged_clade_by df (fun t => t = 0 ∨ t = 1))),
           ("UNCLASSIFIED_TOTAL_K2", rat_trunc (merged_clade_by df (fun t => t = 0))),
           ("CLASSIFIED_TOTAL_K2", rat_trunc (merged_clade_by df (fun t => t = 1))),
           ("MICROBIAL_TOTAL_K2", rat_trunc (merged_clade_by df
              (fun t => t = 2 ∨ t = 4751 ∨ t = 2157 ∨ t = 10239))),
           ("HUMAN_TOTAL_K2", rat_trunc (merged_clade_by df (fun t => t = 9606)))]

/-- Sum of estimated clade reads over MetaPhlAn rows whose clade name starts
with the given kingdom-level literal. -/
def mpa_kingdom_reads (df : List MRow) (pfx : String) : ℚ :=
  ((df.filter (fun r => py_starts_with r.clade_name pfx)).map
      (fun r => r.estimated_number_of_reads_from_the_clade)).sum

/-- The MetaPhlAn block of `summarize_classification`: header scalars are
scanned first, then the table is loaded (a malformed table propagates). -/
def mpa_summary_keys (mo : Option (List String)) : Except PyErr (List (String × ℤ)) :=
  match mo with
  | none => .ok []
  | some lines =>
      let total := mpa_total_reads lines
      let classified := mpa_classified_reads lines
      match load_metaphlan_table lines with
      | .error e => .error e
      | .ok df =>
          .ok [("TOTAL_READS_MPA", total),
               ("CLASSIFIED_READS_MPA", classified),
               ("UNCLASSIFIED_READS_MPA", max 0 (total - classified)),
               ("BACTERIAL_READS_MPA", rat_trunc (mpa_kingdom_reads df "k__Bacteria")),
               ("ARCHAEAL_READS_MPA", rat_trunc (mpa_kingdom_reads df "k__Archaea"))]

/-- `summarize_classification`. -/
def summarize_classification (ci : ClassifInputs) : Except PyErr (List (String × ℤ)) := do
  let k ← kraken_summary_keys (merge_kraken_reports ci.paired ci.unpaired)
  let m ← mpa_summary_keys ci.mpa
  .ok (k ++ m)

/-- A normalized Kraken2 output row (column order of the written table). -/
structure KNormRow where
  name : String
  tax_id : ℚ
  rank : String
  reads_clade : ℚ
  reads_taxon : ℚ
  reads_clade_per_million : ℚ
  reads_taxon_per_million : ℚ
  pct_reads : ℚ
deriving DecidableEq

/-- A normalized MetaPhlAn output row (column order of the written table). -/
structure MNormRow where
  clade_name : String
  clade_taxid : ℤ
  estimated_number_of_reads_from_the_clade : ℚ
  estimated_number_of_reads_from_the_clade_per_million : ℚ
  relative_abundance : ℚ
  coverage : ℚ
deriving DecidableEq

/-- Append the two RPM columns to a merged Kraken2 row. -/
def kraken_norm_row (primary : ℤ) (r : KMergedRow) : KNormRow :=
  { name := r.name, tax_id := r.tax_id, rank := r.rank,
    reads_clade := r.reads_clade, reads_taxon := r.reads_taxon,
    reads_clade_per_million := 1000000 * r.reads_clade / (primary : ℚ),
    reads_taxon_per_million := 1000000 * r.reads_taxon / (primary : ℚ),
    pct_reads := r.pct_reads }

/-- Append the RPM column to a MetaPhlAn row and select output columns. -/
def mpa_norm_row (primary : ℤ) (r : MRow) : MNormRow :=
  { clade_name := r.clade_name, clade_taxid := r.clade_taxid,
    estimated_number_of_reads_from_the_clade := r.estimated_number_of_reads_from_the_clade,
    estimated_number_of_reads_from_the_clade_per_million :=
      1000000 * r.estimated_number_of_reads_from_the_clade / (primary : ℚ),
    relative_abundance := r.relative_abundance, coverage := r.coverage }

/-- The two (optional) normalized tables a run writes. -/
structure NormOutputs where
  kraken : Option (List KNormRow)
  mpa : Option (List MNormRow)
deriving DecidableEq

/-- The Kraken2 half of `write_normalized_tables`: attempted only when at
least one report file exists; any exception from the merge is downgraded to
a warning, producing no file (`none`). -/
def kraken_norm_out (primary_reads : ℤ) (p u : Option (List String)) :
    Option (List KNormRow) :=
  match p, u with
  | none, none => none
  | _, _ =>
    match merge_kraken_reports p u with
    | .ok rows => some (rows.map (kraken_norm_row primary_reads))
    | .error _ => none

/-- The MetaPhlAn half of `write_normalized_tables`: attempted only when
the file exists; any exception from loading is downgraded to a warning. -/
def mpa_norm_out (primary_reads : ℤ) (m : Option (List String)) : Option (List MNormRow) :=
  match m with
  | none => none
  | some lines =>
    match load_metaphlan_table lines with
    | .ok rows => some (rows.map (mpa_norm_row primary_reads))
    | .error _ => none

/-- `write_normalized_tables`: an early return when `primary_reads <= 0`;
otherwise each classifier's table is attempted independently. -/
def write_normalized_tables (primary_reads : ℤ) (ci : ClassifInputs) : NormOutputs :=
  if primary_reads ≤ 0 then ⟨none, none⟩
  else ⟨kraken_norm_out primary_reads ci.paired ci.unpaired,
        mpa_norm_out primary_reads ci.mpa⟩

/-- `PRIMARY_READS` as `main` reads it back from the filtering row. -/
def primary_of (fi : FilterInputs) : ℤ :=
  (series_get (filtering_summary fi) "PRIMARY_READS").getD 0

/-- The dataflow of `main` after argument/directory handling: filtering
summary, classification summary (whose uncaught exceptions surface as the
top-level FATAL path, exit 1), the combined one-row summary (written
unconditionally on success), then the normalized tables. -/
def main_run (fi : FilterInputs) (ci : ClassifInputs) :
    Except PyErr (List (String × ℤ) × NormOutputs) := do
  let filt_row := filtering_summary fi
  let class_row ← summarize_classification ci
  .ok (filt_row ++ class_row, write_normalized_tables (primary_of fi) ci)

/-- The C8 construction from the spec's words: the same report with its two
read-count columns halved. -/
def halve_rows (rows : List KRow) : List KRow :=
  rows.map (fun r => { r with reads_clade := r.reads_clade / 2, reads_taxon := r.reads_taxon / 2 })

/-- Per-taxon `reads_clade` total of a (possibly absent) merged table. -/
def merged_clade_total (o : Option (List KMergedRow)) (k : String × ℚ × String) : ℚ :=
  (((o.getD []).filter (fun r => decide (merged_key r = k))).map (fun r => r.reads_clade)).sum

/-! ## Helper lemmas -/

theorem list_filter_of_map {α β} (f : α → β) (p : β → Bool) (l : List α) :
    (l.map f).filter p = (l.filter (fun a => p (f a))).map f := by
  induction l with
  | nil => rfl
  | cons a t ih =>
      by_cases h : p (f a)
      · simp [List.filter_cons, h, ih]
      · simp [List.filter_cons, h, ih]

theorem list_filter_eq_of_nodup {α} [DecidableEq α] (l : List α) (h : l.Nodup) (k : α) :
    l.filter (fun a => decide (a = k)) = if k ∈ l then [k] else [] := by
  induction l with
  | nil => simp
  | cons a t ih =>
      rcases List.nodup_cons.mp h with ⟨ha, ht⟩
      by_cases hak : a = k
      · subst hak
        have : t.filter (fun x => decide (x = a)) = [] := by
          refine List.filter_eq_nil_iff.mpr ?_
          intro x hx
          simp only [decide_eq_true_eq]
          intro hxa; exact ha (hxa ▸ hx)
        simp [List.filter_cons, this]
      · have hk : (k ∈ a :: t) ↔ (k ∈ t) := by
          constructor
          · intro h
            rcases List.mem_cons.mp h with h | h
            · exact absurd h.symm hak
            · exact h
          · exact fun h => List.mem_cons_of_mem a h
        rw [List.filter_cons, if_neg (by simp [hak]), ih ht]
        by_cases hkt : k ∈ t
        · rw [if_pos hkt, if_pos (hk.mpr hkt)]
        · rw [if_neg hkt, if_neg (fun h => hkt (hk.mp h))]

theorem list_sum_map_add {α} (l : List α) (f g : α → ℚ) :
    (l.map (fun x => f x + g x)).sum = (l.map f).sum + (l.map g).sum := by
  induction l with
  | nil => simp
  | cons a t ih => simp [ih]; ring

theorem list_sum_map_const {α} (l : List α) (c : ℚ) :
    (l.map (fun _ => c)).sum = (l.length : ℚ) * c := by
  induction l with
  | nil => simp
  | cons a t ih => simp [ih]; ring

theorem rat_floor_eq_int_floor (q : ℚ) : Rat.floor q = ⌊q⌋ := by
  rw [Rat.floor_def']
  exact (Rat.floor_def).symm

theorem round_half_even_le (q : ℚ) : (round_half_even q : ℚ) ≤ q + 1/2 := by
  have hfl : ((⌊q⌋ : ℤ) : ℚ) ≤ q := Int.floor_le q
  unfold round_half_even
  rw [rat_floor_eq_int_floor]
  split_ifs with h1 h2 h3
  · linarith
  · push_cast
    linarith
  · linarith
  · push_cast
    linarith

theorem round4_le (q : ℚ) : round4 q ≤ q + 1/20000 := by
  have h := round_half_even_le (q * 10000)
  have hd : round4 q = ((round_half_even (q * 10000) : ℤ) : ℚ) / 10000 := rfl
  rw [hd, div_le_iff₀ (by norm_num : (0 : ℚ) < 10000)]
  linarith

theorem group_key_group_row (rows : List KRow) (k : String × ℚ × String) :
    group_key (group_row rows k) = k := by
  obtain ⟨a, b, c⟩ := k
  rfl

theorem group_kraken_filter (rows : List KRow) (k : String × ℚ × String) :
    (group_kraken rows).filter (fun g => decide (group_key g = k))
      = if k ∈ rows.map row_key then [group_row rows k] else [] := by
  unfold group_kraken
  rw [list_filter_of_map]
  rw [List.filter_congr (fun x _ => by rw [group_key_group_row])]
  rw [list_filter_eq_of_nodup _ (List.nodup_dedup _) k]
  by_cases hm : k ∈ rows.map row_key
  · rw [if_pos ((List.mem_dedup).mpr hm), if_pos hm]
    rfl
  · rw [if_neg (fun h => hm ((List.mem_dedup).mp h)), if_neg hm]
    rfl

theorem merged_key_pct_row (t : ℚ) (g : KGroup) : merged_key (pct_row t g) = group_key g := rfl

theorem assign_pct_filter (gs : List KGroup) (k : String × ℚ × String) :
    (assign_pct gs).filter (fun r => decide (merged_key r = k))
      = (gs.filter (fun g => decide (group_key g = k))).map (pct_row (kraken_denominator gs)) := by
  unfold assign_pct
  rw [list_filter_of_map]
  rw [List.filter_congr (fun x _ => by rw [merged_key_pct_row])]

theorem merge_out_filter (rows : List KRow) (k : String × ℚ × String) :
    (assign_pct (group_kraken rows)).filter (fun r => decide (merged_key r = k))
      = if k ∈ rows.map row_key
        then [pct_row (kraken_denominator (group_kraken rows)) (group_row rows k)] else [] := by
  rw [assign_pct_filter, group_kraken_filter]
  by_cases hm : k ∈ rows.map row_key
  · rw [if_pos hm, if_pos hm]
    rfl
  · rw [if_neg hm, if_neg hm]
    rfl

theorem denom_assign_pct (gs : List KGroup) :
    ((assign_pct gs).filter (fun r => decide (r.tax_id = 0 ∨ r.tax_id = 1))).map
        (fun r => r.reads_clade)
      = (gs.filter (fun g => decide (g.tax_id = 0 ∨ g.tax_id = 1))).map (fun g => g.reads_clade) := by
  unfold assign_pct
  rw [list_filter_of_map, List.map_map]
  rfl

theorem clade_sum_append (a b : List KRow) (k : String × ℚ × String) :
    clade_sum (a ++ b) k = clade_sum a k + clade_sum b k := by
  unfold clade_sum
  rw [List.filter_append, List.map_append, List.sum_append]

theorem taxon_sum_append (a b : List KRow) (k : String × ℚ × String) :
    taxon_sum (a ++ b) k = taxon_sum a k + taxon_sum b k := by
  unfold taxon_sum
  rw [List.filter_append, List.map_append, List.sum_append]

theorem clade_sum_double (l : List KRow) (k : String × ℚ × String) :
    clade_sum (double_counts l) k = 2 * clade_sum l k := by
  unfold clade_sum double_counts
  rw [list_filter_of_map, List.map_map]
  exact List.sum_map_mul_left _ _ _

theorem taxon_sum_double (l : List KRow) (k : String × ℚ × String) :
    taxon_sum (double_counts l) k = 2 * taxon_sum l k := by
  unfold taxon_sum double_counts
  rw [list_filter_of_map, List.map_map]
  exact List.sum_map_mul_left _ _ _

theorem clade_sum_halve (l : List KRow) (k : String × ℚ × String) :
    clade_sum (halve_rows l) k = clade_sum l k / 2 := by
  unfold clade_sum halve_rows
  rw [list_filter_of_map, List.map_map]
  have h := List.sum_map_mul_left (l.filter (fun r => decide (row_key r = k)))
    (fun r => r.reads_clade) (1/2 : ℚ)
  calc ((l.filter (fun r => decide (row_key r = k))).map (fun r => r.reads_clade / 2)).sum
      = ((l.filter (fun r => decide (row_key r = k))).map
          (fun r => (1/2 : ℚ) * r.reads_clade)).sum := by
        congr 1
        exact List.map_congr_left (fun r _ => by ring)
    _ = (1/2 : ℚ) * ((l.filter (fun r => decide (row_key r = k))).map (fun r => r.reads_clade)).sum := h
    _ = clade_sum l k / 2 := by
        unfold clade_sum
        ring

theorem merge_kraken_rows_eq (po uo : Option (List KRow)) (h : po.isSome ∨ uo.isSome) :
    merge_kraken_rows po uo
      = some (assign_pct (group_kraken
          (double_counts (po.getD []) ++ double_counts (uo.getD [])))) := by
  cases po with
  | none =>
      cases uo with
      | none => simp [Option.isSome] at h
      | some u => rfl
  | some p =>
      cases uo with
      | none => rfl
      | some u => rfl

theorem assign_pct_mem (gs : List KGroup) (r : KMergedRow) (hr : r ∈ assign_pct gs) :
    r.pct_reads = if 0 < kraken_denominator gs
      then round4 (100 * r.reads_clade / kraken_denominator gs) else 0 := by
  unfold assign_pct at hr
  rcases List.mem_map.mp hr with ⟨g, hg, rfl⟩
  rfl

theorem denom_out (gs : List KGroup) :
    (((assign_pct gs).filter (fun r => decide (r.tax_id = 0 ∨ r.tax_id = 1))).map
        (fun r => r.reads_clade)).sum = kraken_denominator gs := by
  rw [denom_assign_pct]
  rfl

theorem clade_sum_eq_zero (rows : List KRow) (k : String × ℚ × String)
    (hm : k ∉ rows.map row_key) : clade_sum rows k = 0 := by
  unfold clade_sum
  have hnil : rows.filter (fun r => decide (row_key r = k)) = [] := by
    refine List.filter_eq_nil_iff.mpr ?_
    intro r hr
    simp only [decide_eq_true_eq]
    intro he
    exact hm (he ▸ List.mem_map_of_mem row_key hr)
  rw [hnil]
  rfl

theorem taxon_sum_eq_zero (rows : List KRow) (k : String × ℚ × String)
    (hm : k ∉ rows.map row_key) : taxon_sum rows k = 0 := by
  unfold taxon_sum
  have hnil : rows.filter (fun r => decide (row_key r = k)) = [] := by
    refine List.filter_eq_nil_iff.mpr ?_
    intro r hr
    simp only [decide_eq_true_eq]
    intro he
    exact hm (he ▸ List.mem_map_of_mem row_key hr)
  rw [hnil]
  rfl

theorem merged_filter_length (rows : List KRow) (k : String × ℚ × String) :
    ((assign_pct (group_kraken rows)).filter (fun r => decide (merged_key r = k))).length
      = if k ∈ rows.map row_key then 1 else 0 := by
  rw [merge_out_filter]
  by_cases hm : k ∈ rows.map row_key
  · rw [if_pos hm, if_pos hm]
    rfl
  · rw [if_neg hm, if_neg hm]
    rfl

theorem merged_filter_clade (rows : List KRow) (k : String × ℚ × String) :
    (((assign_pct (group_kraken rows)).filter (fun r => decide (merged_key r = k))).map
        (fun r => r.reads_clade)).sum = clade_sum rows k := by
  rw [merge_out_filter]
  by_cases hm : k ∈ rows.map row_key
  · rw [if_pos hm]
    simp [pct_row, group_row]
  · rw [if_neg hm]
    rw [clade_sum_eq_zero rows k hm]
    rfl

theorem merged_filter_taxon (rows : List KRow) (k : String × ℚ × String) :
    (((assign_pct (group_kraken rows)).filter (fun r => decide (merged_key r = k))).map
        (fun r => r.reads_taxon)).sum = taxon_sum rows k := by
  rw [merge_out_filter]
  by_cases hm : k ∈ rows.map row_key
  · rw [if_pos hm]
    simp [pct_row, group_row]
  · rw [if_neg hm]
    rw [taxon_sum_eq_zero rows k hm]
    rfl

theorem row_key_double_map (l : List KRow) : (double_counts l).map row_key = l.map row_key := by
  unfold double_counts
  rw [List.map_map]
  rfl

theorem merged_clade_total_eq (po uo : Option (List KRow)) (h : po.isSome ∨ uo.isSome)
    (k : String × ℚ × String) :
    merged_clade_total (merge_kraken_rows po uo) k
      = 2 * clade_sum (po.getD [] ++ uo.getD []) k := by
  rw [merge_kraken_rows_eq po uo h]
  unfold merged_clade_total
  simp only [Option.getD_some]
  rw [merged_filter_clade]
  rw [clade_sum_append, clade_sum_double, clade_sum_double, clade_sum_append]
  ring

/-! ## Claim theorems -/

/-- C1: for every pair of loaded first-classifier reports (paired and/or
unpaired present), `merge_kraken_rows` produces exactly one output row per
distinct (name, tax_id, rank) triple occurring in the inputs, and that
row's `reads_clade` (resp. `reads_taxon`) equals 2 times the sum of
`reads_clade` (resp. `reads_taxon`) over all input rows with that triple
across the present files. -/
theorem c1_merge_doubles_and_groups (po uo : Option (List KRow)) (out : List KMergedRow)
    (h : merge_kraken_rows po uo = some out) (k : String × ℚ × String) :
    ((out.filter (fun r => decide (merged_key r = k))).length
        = if k ∈ (po.getD [] ++ uo.getD []).map row_key then 1 else 0)
    ∧ ((out.filter (fun r => decide (merged_key r = k))).map (fun r => r.reads_clade)).sum
        = 2 * clade_sum (po.getD [] ++ uo.getD []) k
    ∧ ((out.filter (fun r => decide (merged_key r = k))).map (fun r => r.reads_taxon)).sum
        = 2 * taxon_sum (po.getD [] ++ uo.getD []) k := by
  have hsome : po.isSome ∨ uo.isSome := by
    cases po with
    | none =>
        cases uo with
        | none => simp [merge_kraken_rows] at h
        | some u => right; rfl
    | some p => left; rfl
  rw [merge_kraken_rows_eq po uo hsome] at h
  have hout := (Option.some.inj h).symm
  subst hout
  have hkeys : (double_counts (po.getD []) ++ double_counts (uo.getD [])).map row_key
      = (po.getD [] ++ uo.getD []).map row_key := by
    rw [List.map_append, List.map_append, row_key_double_map, row_key_double_map]
  refine ⟨?_, ?_, ?_⟩
  · rw [merged_filter_length, hkeys]
  · rw [merged_filter_clade, clade_sum_append, clade_sum_double, clade_sum_double,
      clade_sum_append]
    ring
  · rw [merged_filter_taxon, taxon_sum_append, taxon_sum_double, taxon_sum_double,
      taxon_sum_append]
    ring

/-- Witness for C1 at a concrete one-row paired report. -/
theorem c1_merge_doubles_and_groups_witness :
    (([⟨100, 20, 20, "U", 0, "unclassified"⟩] : List KMergedRow).filter
        (fun r => decide (merged_key r = ("unclassified", 0, "U")))).length = 1 := by
  have h := c1_merge_doubles_and_groups (some [⟨0, 10, 10, 0, 0, "U", 0, "unclassified"⟩]) none
      [⟨100, 20, 20, "U", 0, "unclassified"⟩] (by decide) ("unclassified", 0, "U")
  rw [h.1]
  decide

/-- C2: after the merge, the denominator is the sum of `reads_clade` over
exactly the output rows with `tax_id` 0 or 1, and every output row's
`pct_reads` is 100 * reads_clade / denominator rounded to 4 decimal places
when that denominator is positive, and 0 for every row otherwise (no
division by zero). -/
theorem c2_pct_recompute (po uo : Option (List KRow)) (out : List KMergedRow)
    (h : merge_kraken_rows po uo = some out) :
    ∀ r ∈ out,
      r.pct_reads =
        if 0 < ((out.filter (fun x => decide (x.tax_id = 0 ∨ x.tax_id = 1))).map
            (fun x => x.reads_clade)).sum
        then round4 (100 * r.reads_clade /
          ((out.filter (fun x => decide (x.tax_id = 0 ∨ x.tax_id = 1))).map
            (fun x => x.reads_clade)).sum)
        else 0 := by
  have hsome : po.isSome ∨ uo.isSome := by
    cases po with
    | none =>
        cases uo with
        | none => simp [merge_kraken_rows] at h
        | some u => right; rfl
    | some p => left; rfl
  rw [merge_kraken_rows_eq po uo hsome] at h
  have hout := (Option.some.inj h).symm
  subst hout
  intro r hr
  rw [denom_out]
  exact assign_pct_mem _ r hr

/-- Witness for C2 at a concrete two-row paired report. -/
theorem c2_pct_recompute_witness :
    merge_kraken_rows (some [⟨0, 10, 10, 0, 0, "U", 0, "u"⟩,
        ⟨0, 90, 30, 5, 5, "R", 1, "root"⟩]) none
      = some [⟨10, 20, 20, "U", 0, "u"⟩, ⟨90, 180, 60, "R", 1, "root"⟩]
    ∧ (⟨90, 180, 60, "R", 1, "root"⟩ : KMergedRow).pct_reads
        = if 0 < (([(⟨10, 20, 20, "U", 0, "u"⟩ : KMergedRow),
              ⟨90, 180, 60, "R", 1, "root"⟩].filter
              (fun x => decide (x.tax_id = 0 ∨ x.tax_id = 1))).map (fun x => x.reads_clade)).sum
          then round4 (100 * (⟨90, 180, 60, "R", 1, "root"⟩ : KMergedRow).reads_clade /
            (([(⟨10, 20, 20, "U", 0, "u"⟩ : KMergedRow),
              ⟨90, 180, 60, "R", 1, "root"⟩].filter
              (fun x => decide (x.tax_id = 0 ∨ x.tax_id = 1))).map (fun x => x.reads_clade)).sum)
          else 0 := by
  refine ⟨by decide, ?_⟩
  exact c2_pct_recompute (some [⟨0, 10, 10, 0, 0, "U", 0, "u"⟩,
      ⟨0, 90, 30, 5, 5, "R", 1, "root"⟩]) none
    [⟨10, 20, 20, "U", 0, "u"⟩, ⟨90, 180, 60, "R", 1, "root"⟩] (by decide)
    ⟨90, 180, 60, "R", 1, "root"⟩ (by decide)

/-- C7 counterexample: a merged table with positive denominator whose
non-root recomputed percentages sum to 10000, far above 100: the code never
checks that non-root clade counts are bounded by the root total, so the
claimed bound fails on hierarchy-inconsistent input (root `reads_clade` 1,
a taxon-2 row with `reads_clade` 100). -/
theorem c7_pct_bound_counterexample :
    0 < ((((merge_kraken_rows (some [⟨0, 1, 1, 0, 0, "R", 1, "root"⟩,
            ⟨0, 100, 100, 0, 0, "D", 2, "Bacteria"⟩]) none).getD []).filter
          (fun x => decide (x.tax_id = 0 ∨ x.tax_id = 1))).map (fun x => x.reads_clade)).sum
    ∧ ((((merge_kraken_rows (some [⟨0, 1, 1, 0, 0, "R", 1, "root"⟩,
            ⟨0, 100, 100, 0, 0, "D", 2, "Bacteria"⟩]) none).getD []).filter
          (fun x => decide (¬(x.tax_id = 0 ∨ x.tax_id = 1)))).map (fun x => x.pct_reads)).sum
        = 10000 := by
  constructor
  · decide
  · decide

/-- C7 (amended): for a merged table with positive denominator, IF in
addition the non-root rows' `reads_clade` sum is at most the denominator
(true of hierarchy-consistent classifier output, not enforced by the code),
then the non-root recomputed percentages sum to at most 100 plus the
rounding slack of 1/20000 per row; and the rows with `tax_id` 0 or 1 always
have `reads_clade` summing exactly to the denominator the code computed. -/
theorem c7_amended_pct_bound (po uo : Option (List KRow)) (out : List KMergedRow)
    (h : merge_kraken_rows po uo = some out)
    (ht : 0 < ((out.filter (fun x => decide (x.tax_id = 0 ∨ x.tax_id = 1))).map
        (fun x => x.reads_clade)).sum)
    (hs : ((out.filter (fun x => decide (¬(x.tax_id = 0 ∨ x.tax_id = 1)))).map
          (fun x => x.reads_clade)).sum
        ≤ ((out.filter (fun x => decide (x.tax_id = 0 ∨ x.tax_id = 1))).map
          (fun x => x.reads_clade)).sum) :
    ((out.filter (fun x => decide (¬(x.tax_id = 0 ∨ x.tax_id = 1)))).map
          (fun x => x.pct_reads)).sum
        ≤ 100 + ((out.filter (fun x => decide (¬(x.tax_id = 0 ∨ x.tax_id = 1)))).length : ℚ)
            / 20000
    ∧ kraken_denominator (group_kraken (double_counts (po.getD []) ++ double_counts (uo.getD [])))
        = ((out.filter (fun x => decide (x.tax_id = 0 ∨ x.tax_id = 1))).map
          (fun x => x.reads_clade)).sum := by
  have hsome : po.isSome ∨ uo.isSome := by
    cases po with
    | none =>
        cases uo with
        | none => simp [merge_kraken_rows] at h
        | some u => right; rfl
    | some p => left; rfl
  rw [merge_kraken_rows_eq po uo hsome] at h
  have hout := (Option.some.inj h).symm
  subst hout
  rw [denom_out] at ht hs
  refine ⟨?_, (denom_out _).symm⟩
  have hstep : ∀ r ∈ (assign_pct (group_kraken (double_counts (po.getD [])
        ++ double_counts (uo.getD [])))).filter (fun x => decide (¬(x.tax_id = 0 ∨ x.tax_id = 1))),
      r.pct_reads ≤ 100 * r.reads_clade / kraken_denominator (group_kraken
        (double_counts (po.getD []) ++ double_counts (uo.getD []))) + 1/20000 := by
    intro r hr
    have hmem := List.mem_of_mem_filter hr
    rw [assign_pct_mem _ r hmem, if_pos ht]
    exact round4_le _
  have hsum := List.sum_le_sum hstep
  rw [list_sum_map_add, list_sum_map_const] at hsum
  have hfac : (((assign_pct (group_kraken (double_counts (po.getD [])
          ++ double_counts (uo.getD [])))).filter
        (fun x => decide (¬(x.tax_id = 0 ∨ x.tax_id = 1)))).map
        (fun r => 100 * r.reads_clade / kraken_denominator (group_kraken
          (double_counts (po.getD []) ++ double_counts (uo.getD []))))).sum
      = (100 / kraken_denominator (group_kraken (double_counts (po.getD [])
          ++ double_counts (uo.getD []))))
        * (((assign_pct (group_kraken (double_counts (po.getD [])
            ++ double_counts (uo.getD [])))).filter
          (fun x => decide (¬(x.tax_id = 0 ∨ x.tax_id = 1)))).map
          (fun r => r.reads_clade)).sum := by
    rw [← List.sum_map_mul_left]
    congr 1
    exact List.map_congr_left (fun r _ => by ring)
  rw [hfac] at hsum
  have hb : (100 / kraken_denominator (group_kraken (double_counts (po.getD [])
        ++ double_counts (uo.getD []))))
      * (((assign_pct (group_kraken (double_counts (po.getD [])
          ++ double_counts (uo.getD [])))).filter
        (fun x => decide (¬(x.tax_id = 0 ∨ x.tax_id = 1)))).map
        (fun r => r.reads_clade)).sum ≤ 100 := by
    have hpos : 0 < 100 / kraken_denominator (group_kraken (double_counts (po.getD [])
        ++ double_counts (uo.getD []))) := by positivity
    have := mul_le_mul_of_nonneg_left hs (le_of_lt hpos)
    calc (100 / kraken_denominator (group_kraken (double_counts (po.getD [])
            ++ double_counts (uo.getD []))))
          * (((assign_pct (group_kraken (double_counts (po.getD [])
              ++ double_counts (uo.getD [])))).filter
            (fun x => decide (¬(x.tax_id = 0 ∨ x.tax_id = 1)))).map
            (fun r => r.reads_clade)).sum
        ≤ (100 / kraken_denominator (group_kraken (double_counts (po.getD [])
            ++ double_counts (uo.getD []))))
          * kraken_denominator (group_kraken (double_counts (po.getD [])
            ++ double_counts (uo.getD []))) := this
      _ = 100 := by field_simp
  calc (((assign_pct (group_kraken (double_counts (po.getD [])
          ++ double_counts (uo.getD [])))).filter
        (fun x => decide (¬(x.tax_id = 0 ∨ x.tax_id = 1)))).map
        (fun x => x.pct_reads)).sum
      ≤ _ := hsum
    _ ≤ 100 + (((assign_pct (group_kraken (double_counts (po.getD [])
          ++ double_counts (uo.getD [])))).filter
        (fun x => decide (¬(x.tax_id = 0 ∨ x.tax_id = 1)))).length : ℚ) * (1/20000) := by
        linarith
    _ = 100 + (((assign_pct (group_kraken (double_counts (po.getD [])
          ++ double_counts (uo.getD [])))).filter
        (fun x => decide (¬(x.tax_id = 0 ∨ x.tax_id = 1)))).length : ℚ) / 20000 := by
        ring

/-- Witness for the amended C7 at a concrete consistent report. -/
theorem c7_amended_pct_bound_witness :
    ((((merge_kraken_rows (some [⟨0, 10, 10, 0, 0, "U", 0, "u"⟩,
          ⟨0, 90, 90, 0, 0, "R", 1, "root"⟩, ⟨0, 40, 40, 0, 0, "D", 2, "Bacteria"⟩]) none).getD
        []).filter (fun x => decide (¬(x.tax_id = 0 ∨ x.tax_id = 1)))).map
        (fun x => x.pct_reads)).sum
      ≤ 100 + ((((merge_kraken_rows (some [⟨0, 10, 10, 0, 0, "U", 0, "u"⟩,
          ⟨0, 90, 90, 0, 0, "R", 1, "root"⟩, ⟨0, 40, 40, 0, 0, "D", 2, "Bacteria"⟩]) none).getD
        []).filter (fun x => decide (¬(x.tax_id = 0 ∨ x.tax_id = 1)))).length : ℚ) / 20000 := by
  have h := c7_amended_pct_bound (some [⟨0, 10, 10, 0, 0, "U", 0, "u"⟩,
      ⟨0, 90, 90, 0, 0, "R", 1, "root"⟩, ⟨0, 40, 40, 0, 0, "D", 2, "Bacteria"⟩]) none
      ((merge_kraken_rows (some [⟨0, 10, 10, 0, 0, "U", 0, "u"⟩,
          ⟨0, 90, 90, 0, 0, "R", 1, "root"⟩, ⟨0, 40, 40, 0, 0, "D", 2, "Bacteria"⟩]) none).getD [])
      (by decide) (by decide) (by decide)
  exact h.1

/-- C8: merging a report `X` with even per-row counts as paired-only input
yields the same per-taxon `reads_clade` totals as merging the two halved
copies of `X` supplied as the paired and unpaired inputs: the doubling step
commutes with grouping and splitting. -/
theorem c8_doubling_additivity (X : List KRow)
    (_h : ∀ r ∈ X, (∃ m : ℤ, r.reads_clade = 2 * (m : ℚ))
        ∧ ∃ m : ℤ, r.reads_taxon = 2 * (m : ℚ))
    (k : String × ℚ × String) :
    merged_clade_total (merge_kraken_rows (some X) none) k
      = merged_clade_total (merge_kraken_rows (some (halve_rows X)) (some (halve_rows X))) k := by
  rw [merged_clade_total_eq (some X) none (Or.inl rfl) k,
      merged_clade_total_eq (some (halve_rows X)) (some (halve_rows X)) (Or.inl rfl) k]
  simp only [Option.getD_some, Option.getD_none, List.append_nil]
  rw [clade_sum_append, clade_sum_halve]
  ring

/-- Witness for C8 at a concrete even-count one-row report. -/
theorem c8_doubling_additivity_witness :
    merged_clade_total (merge_kraken_rows (some [⟨0, 2, 2, 0, 0, "R", 1, "root"⟩]) none)
        ("root", 1, "R")
      = merged_clade_total (merge_kraken_rows
          (some (halve_rows [⟨0, 2, 2, 0, 0, "R", 1, "root"⟩]))
          (some (halve_rows [⟨0, 2, 2, 0, 0, "R", 1, "root"⟩]))) ("root", 1, "R")
    ∧ merged_clade_total (merge_kraken_rows (some [⟨0, 2, 2, 0, 0, "R", 1, "root"⟩]) none)
        ("root", 1, "R") = 4 := by
  constructor
  · exact c8_doubling_additivity [⟨0, 2, 2, 0, 0, "R", 1, "root"⟩]
      (fun r hr => by
        rcases List.mem_singleton.mp hr with rfl
        exact ⟨⟨1, by norm_num⟩, ⟨1, by norm_num⟩⟩) ("root", 1, "R")
  · decide

theorem py_to_nat?_of_isdigit (s : String) (h : py_isdigit s = true) :
    py_to_nat? s = some (digits_value s.toList) := by
  unfold py_to_nat?
  exact if_pos h

/-- C6 counterexample: on a file whose first `primary`-marked line carries a
non-numeric first field, the scan keeps going and returns the value of a
later `primary` line (7), where the claim as stated demands an absent
result (`flagstat_claim_spec` spells out the claim's reading). -/
theorem c6_flagstat_counterexample :
    parse_flagstat_primary (some ["abc\t0\tprimary", "7\t0\tprimary"]) = some 7
    ∧ flagstat_claim_spec ["abc\t0\tprimary", "7\t0\tprimary"] = none := by
  exact ⟨by decide, by decide⟩

/-- C6 (amended): the extractor returns the integer first field of the
first line that is both `primary`-marked in its third field and carries a
well-formed non-negative integer first field (later such lines are
consulted when an earlier `primary` line has a malformed value); it returns
absent when no such line exists or the file is unreadable. -/
theorem c6_amended_flagstat (file : Option (List String)) :
    parse_flagstat_primary file
      = file.bind (fun lines => lines.findSome? flagstat_line_value) := by
  cases file with
  | none => rfl
  | some lines =>
      show flagstat_scan lines = lines.findSome? flagstat_line_value
      induction lines with
      | nil => rfl
      | cons line rest ih =>
          rw [List.findSome?_cons]
          simp only [flagstat_scan, flagstat_line_value]
          split_ifs with hA hB hC hC hA2
          · rw [py_to_nat?_of_isdigit _ hB]
          · exact absurd ⟨hA.1, hA.2, hB⟩ hC
          · exact absurd hC.2.2 hB
          · exact ih
          · exact absurd ⟨hA2.1, hA2.2.1⟩ hA
          · exact ih

/-- C4 counterexample: the emitted key order contains neither of the
aligned T2T counters the claim's tail ("the four T2T paired/unpaired
aligned/unaligned counters") requires; the `reindex` on
`FILTER_SUMMARY_ORDER` drops them even though they are collected. -/
theorem c4_order_counterexample :
    "T2T_ALIGNED_PAIRED_PRIMARY" ∉ (filtering_summary empty_filter_inputs).map Prod.fst
    ∧ "T2T_ALIGNED_UNPAIRED_PRIMARY" ∉ (filtering_summary empty_filter_inputs).map Prod.fst := by
  exact ⟨by decide, by decide⟩

/-- C4 (amended): for every input, the filtering summary row has the fixed,
input-independent key order: the primary-read count first, then the three
eight-counter groups in the order QCFILTER, UNALIGNED, EXCLUDED, then
three T2T counters — the derived unaligned total followed by the unaligned
paired and unpaired counters (the two aligned counters are collected but
not emitted); every key in this order is present, and any absent
extraction is materialized as integer 0. -/
theorem c4_amended_summary_order (fi : FilterInputs) :
    (filtering_summary fi).map Prod.fst = FILTER_SUMMARY_ORDER
    ∧ FILTER_SUMMARY_ORDER =
        ["PRIMARY_READS",
         "QCFILTER_PRIMARY_READS",
         "QCFILTER_READS_AFTER_PREALIGNED_HOST_FILTER",
         "QCFILTER_READS_AFTER_QUALITY_AND_COMPLEXITY_FILTER",
         "QCFILTER_READS_AFTER_HOST_FILTER",
         "QCFILTER_READS_AFTER_DEDUPLICATION",
         "QCFILTER_FINAL_PAIRED_READS",
         "QCFILTER_FINAL_UNPAIRED_READS",
         "QCFILTER_FINAL_TOTAL_READS",
         "UNALIGNED_PRIMARY_READS",
         "UNALIGNED_READS_AFTER_PREALIGNED_HOST_FILTER",
         "UNALIGNED_READS_AFTER_QUALITY_AND_COMPLEXITY_FILTER",
         "UNALIGNED_READS_AFTER_HOST_FILTER",
         "UNALIGNED_READS_AFTER_DEDUPLICATION",
         "UNALIGNED_FINAL_PAIRED_READS",
         "UNALIGNED_FINAL_UNPAIRED_READS",
         "UNALIGNED_FINAL_TOTAL_READS",
         "EXCLUDED_PRIMARY_READS",
         "EXCLUDED_READS_AFTER_PREALIGNED_HOST_FILTER",
         "EXCLUDED_READS_AFTER_QUALITY_AND_COMPLEXITY_FILTER",
         "EXCLUDED_READS_AFTER_HOST_FILTER",
         "EXCLUDED_READS_AFTER_DEDUPLICATION",
         "EXCLUDED_FINAL_PAIRED_READS",
         "EXCLUDED_FINAL_UNPAIRED_READS",
         "EXCLUDED_FINAL_TOTAL_READS",
         "T2T_UNALIGNED_TOTAL_READS",
         "T2T_UNALIGNED_PAIRED_PRIMARY",
         "T2T_UNALIGNED_UNPAIRED_PRIMARY"]
    ∧ ∀ k v, (k, v) ∈ filtering_summary fi →
        series_get (collect_primary_reads fi ++ collect_pathseq_metrics fi) k = none →
        v = 0 := by
  refine ⟨?_, by decide, ?_⟩
  · unfold filtering_summary
    rw [List.map_map]
    exact List.map_id _
  · intro k v hm hnone
    unfold filtering_summary at hm
    rcases List.mem_map.mp hm with ⟨q, hq, heq⟩
    have hk : q = k := congrArg Prod.fst heq
    subst hk
    have hv : (series_get (collect_primary_reads fi ++ collect_pathseq_metrics fi) q).getD 0
        = v := congrArg Prod.snd heq
    rw [hnone] at hv
    exact hv.symm

/-- Witness for the amended C4: with no inputs at all, `PRIMARY_READS` is
absent from the collected Series and materializes as 0. -/
theorem c4_amended_summary_order_witness :
    ("PRIMARY_READS", (0 : ℤ)) ∈ filtering_summary empty_filter_inputs
    ∧ series_get (collect_primary_reads empty_filter_inputs
        ++ collect_pathseq_metrics empty_filter_inputs) "PRIMARY_READS" = none
    ∧ (0 : ℤ) = 0 := by
  refine ⟨by decide, by decide, ?_⟩
  exact (c4_amended_summary_order empty_filter_inputs).2.2 "PRIMARY_READS" 0
    (by decide) (by decide)

theorem foldl_const_of_no_hit {α β : Type} (f : β → α → β) (cond : α → Bool) (l : List α)
    (b : β) (hf : ∀ acc x, cond x = false → f acc x = acc)
    (h : ∀ x ∈ l, cond x = false) : l.foldl f b = b := by
  induction l generalizing b with
  | nil => rfl
  | cons a t ih =>
      rw [List.foldl_cons, hf b a (h a (List.mem_cons_self a t)),
        ih b (fun x hx => h x (List.mem_cons_of_mem a hx))]

/-- C9: the derived MetaPhlAn unclassified count in the classification
summary equals max(0, total_processed - classified) and is never negative,
even when the classified header value exceeds the total; a header scalar
whose labelled line is absent defaults to 0. -/
theorem c9_unclassified_nonneg (f : List String) (row : List (String × ℤ))
    (h : mpa_summary_keys (some f) = .ok row) :
    series_get row "UNCLASSIFIED_READS_MPA"
        = some (max 0 (mpa_total_reads f - mpa_classified_reads f))
    ∧ (∀ v, series_get row "UNCLASSIFIED_READS_MPA" = some v → 0 ≤ v)
    ∧ ((∀ l ∈ mpa_header_lines f, str_contains l "reads processed" = false)
        → mpa_total_reads f = 0)
    ∧ ((∀ l ∈ mpa_header_lines f,
          py_starts_with l "#estimated_reads_mapped_to_known_clades:" = false)
        → mpa_classified_reads f = 0) := by
  have hrow : row = [("TOTAL_READS_MPA", mpa_total_reads f),
      ("CLASSIFIED_READS_MPA", mpa_classified_reads f),
      ("UNCLASSIFIED_READS_MPA", max 0 (mpa_total_reads f - mpa_classified_reads f)),
      ("BACTERIAL_READS_MPA", rat_trunc (mpa_kingdom_reads
        ((load_metaphlan_table f).toOption.getD []) "k__Bacteria")),
      ("ARCHAEAL_READS_MPA", rat_trunc (mpa_kingdom_reads
        ((load_metaphlan_table f).toOption.getD []) "k__Archaea"))] := by
    simp only [mpa_summary_keys] at h
    cases hload : load_metaphlan_table f with
    | error e => rw [hload] at h; exact absurd h (by simp)
    | ok df =>
        rw [hload] at h
        have hr := (Except.ok.inj h).symm
        rw [hr]
        rfl
  subst hrow
  refine ⟨rfl, ?_, ?_, ?_⟩
  · intro v hv
    have : max 0 (mpa_total_reads f - mpa_classified_reads f) = v := Option.some.inj hv
    rw [← this]
    exact le_max_left 0 _
  · intro hnone
    exact foldl_const_of_no_hit scan_total_line
      (fun l => str_contains l "reads processed") (mpa_header_lines f) 0
      (fun acc x hx => by unfold scan_total_line; rw [if_neg (by simp [hx])])
      hnone
  · intro hnone
    exact foldl_const_of_no_hit scan_classified_line
      (fun l => py_starts_with l "#estimated_reads_mapped_to_known_clades:")
      (mpa_header_lines f) 0
      (fun acc x hx => by unfold scan_classified_line; rw [if_neg (by simp [hx])])
      hnone

/-- Witness for C9: a file whose header carries only the classified scalar;
the total defaults to 0 and the derived unclassified count clamps at 0
although classified (900) exceeds total (0). -/
theorem c9_unclassified_nonneg_witness :
    (0 : ℤ) ≤ max 0 (mpa_total_reads ["#estimated_reads_mapped_to_known_clades: 900",
        "k__Bacteria\t2\t50.0\t0.1\t800"]
      - mpa_classified_reads ["#estimated_reads_mapped_to_known_clades: 900",
        "k__Bacteria\t2\t50.0\t0.1\t800"])
    ∧ mpa_total_reads ["#estimated_reads_mapped_to_known_clades: 900",
        "k__Bacteria\t2\t50.0\t0.1\t800"] = 0 := by
  have h := c9_unclassified_nonneg ["#estimated_reads_mapped_to_known_clades: 900",
      "k__Bacteria\t2\t50.0\t0.1\t800"]
    [("TOTAL_READS_MPA", 0), ("CLASSIFIED_READS_MPA", 900), ("UNCLASSIFIED_READS_MPA", 0),
     ("BACTERIAL_READS_MPA", 800), ("ARCHAEAL_READS_MPA", 0)] (by decide)
  exact ⟨h.2.1 _ h.1, h.2.2.1 (by decide)⟩

/-- C10: a MetaPhlAn row whose `clade_taxid` cell is not parseable as a
number is loaded with `clade_taxid = -1` (not 0), whereas non-parseable
cells in the three remaining numeric columns yield 0; and the normalized
second-classifier output carries these `clade_taxid` values unchanged. -/
theorem c10_mpa_taxid_fill (f : List String) (rows : List MRow)
    (h : load_metaphlan_table f = .ok rows) :
    rows = (mpa_table_rows f).map parse_mpa_row
    ∧ (∀ cells : List String,
        (parse_num (cells.getD 1 "") = none → (parse_mpa_row cells).clade_taxid = -1)
        ∧ (parse_num (cells.getD 2 "") = none → (parse_mpa_row cells).relative_abundance = 0)
        ∧ (parse_num (cells.getD 3 "") = none → (parse_mpa_row cells).coverage = 0)
        ∧ (parse_num (cells.getD 4 "") = none
            → (parse_mpa_row cells).estimated_number_of_reads_from_the_clade = 0))
    ∧ ∀ D : ℤ, ∀ ci : ClassifInputs, ci.mpa = some f → 0 < D →
        ((write_normalized_tables D ci).mpa.getD []).map (fun r => r.clade_taxid)
          = rows.map (fun r => r.clade_taxid) := by
  refine ⟨?_, ?_, ?_⟩
  · simp only [load_metaphlan_table] at h
    split_ifs at h
    simp only [Except.ok.injEq] at h
    exact h.symm
  · intro cells
    refine ⟨?_, ?_, ?_, ?_⟩
    · intro hp
      show rat_trunc ((parse_num (cells.getD 1 "")).getD (-1)) = -1
      rw [hp]
      decide
    · intro hp
      show (parse_num (cells.getD 2 "")).getD 0 = 0
      rw [hp]
      rfl
    · intro hp
      show (parse_num (cells.getD 3 "")).getD 0 = 0
      rw [hp]
      rfl
    · intro hp
      show (parse_num (cells.getD 4 "")).getD 0 = 0
      rw [hp]
      rfl
  · intro D ci hmpa hD
    unfold write_normalized_tables
    rw [if_neg (not_le.mpr hD)]
    show ((mpa_norm_out D ci.mpa).getD []).map (fun r => r.clade_taxid)
      = rows.map (fun r => r.clade_taxid)
    rw [hmpa]
    simp only [mpa_norm_out]
    rw [h]
    simp only [Option.getD_some, List.map_map]
    rfl

/-- Witness for C10: one row with all four numeric cells unparseable. -/
theorem c10_mpa_taxid_fill_witness :
    (parse_mpa_row ["k__Bacteria", "X", "Y", "Z", "W"]).clade_taxid = -1
    ∧ ((write_normalized_tables 5 ⟨none, none, some ["k__Bacteria\tX\tY\tZ\tW"]⟩).mpa.getD
        []).map (fun r => r.clade_taxid)
      = [parse_mpa_row ["k__Bacteria", "X", "Y", "Z", "W"]].map (fun r => r.clade_taxid) := by
  have h := c10_mpa_taxid_fill ["k__Bacteria\tX\tY\tZ\tW"]
      [parse_mpa_row ["k__Bacteria", "X", "Y", "Z", "W"]] (by decide)
  exact ⟨(h.2.1 ["k__Bacteria", "X", "Y", "Z", "W"]).1 (by decide),
    h.2.2 5 ⟨none, none, some ["k__Bacteria\tX\tY\tZ\tW"]⟩ rfl (by norm_num)⟩

theorem kraken_norm_fields (D : ℤ) (rows : List KMergedRow) (r : KNormRow)
    (hr : r ∈ rows.map (kraken_norm_row D)) :
    r.reads_clade_per_million = 1000000 * r.reads_clade / (D : ℚ)
    ∧ r.reads_taxon_per_million = 1000000 * r.reads_taxon / (D : ℚ) := by
  rcases List.mem_map.mp hr with ⟨x, hx, rfl⟩
  exact ⟨rfl, rfl⟩

theorem mem_kraken_norm_out (D : ℤ) (p u : Option (List String)) (r : KNormRow)
    (hr : r ∈ ((kraken_norm_out D p u).getD [])) :
    r.reads_clade_per_million = 1000000 * r.reads_clade / (D : ℚ)
    ∧ r.reads_taxon_per_million = 1000000 * r.reads_taxon / (D : ℚ) := by
  cases p with
  | none =>
      cases u with
      | none => exact absurd hr (List.not_mem_nil r)
      | some uf =>
          simp only [kraken_norm_out] at hr
          cases hm : merge_kraken_reports none (some uf) with
          | ok rows =>
              rw [hm] at hr
              exact kraken_norm_fields D rows r hr
          | error e => rw [hm] at hr; exact absurd hr (List.not_mem_nil r)
  | some pf =>
      simp only [kraken_norm_out] at hr
      cases hm : merge_kraken_reports (some pf) u with
      | ok rows =>
          rw [hm] at hr
          exact kraken_norm_fields D rows r hr
      | error e => rw [hm] at hr; exact absurd hr (List.not_mem_nil r)

theorem mem_mpa_norm_out (D : ℤ) (m : Option (List String)) (r : MNormRow)
    (hr : r ∈ ((mpa_norm_out D m).getD [])) :
    r.estimated_number_of_reads_from_the_clade_per_million
      = 1000000 * r.estimated_number_of_reads_from_the_clade / (D : ℚ) := by
  cases m with
  | none => exact absurd hr (List.not_mem_nil r)
  | some lines =>
      simp only [mpa_norm_out] at hr
      cases hl : load_metaphlan_table lines with
      | ok rows =>
          rw [hl] at hr
          rcases List.mem_map.mp hr with ⟨x, hx, rfl⟩
          rfl
      | error e => rw [hl] at hr; exact absurd hr (List.not_mem_nil r)

/-- C3: with a positive denominator D, every per-million value of every
normalized output row equals 1,000,000 * raw_count / D, independently for
`reads_clade` and `reads_taxon` (first classifier) and for the estimated
clade reads (second classifier); with D <= 0 no normalized output is
produced for either classifier, while the raw summary row is still written
by `main`. -/
theorem c3_normalizer_scaling (D : ℤ) (ci : ClassifInputs) :
    (0 < D →
      (∀ r ∈ ((write_normalized_tables D ci).kraken.getD []),
          r.reads_clade_per_million = 1000000 * r.reads_clade / (D : ℚ)
          ∧ r.reads_taxon_per_million = 1000000 * r.reads_taxon / (D : ℚ))
      ∧ ∀ r ∈ ((write_normalized_tables D ci).mpa.getD []),
          r.estimated_number_of_reads_from_the_clade_per_million
            = 1000000 * r.estimated_number_of_reads_from_the_clade / (D : ℚ))
    ∧ (D ≤ 0 → write_normalized_tables D ci = ⟨none, none⟩)
    ∧ ∀ fi : FilterInputs, ∀ cr, primary_of fi ≤ 0 → summarize_classification ci = .ok cr →
        main_run fi ci = .ok (filtering_summary fi ++ cr, ⟨none, none⟩) := by
  refine ⟨?_, ?_, ?_⟩
  · intro hD
    constructor
    · intro r hr
      unfold write_normalized_tables at hr
      rw [if_neg (not_le.mpr hD)] at hr
      exact mem_kraken_norm_out D ci.paired ci.unpaired r hr
    · intro r hr
      unfold write_normalized_tables at hr
      rw [if_neg (not_le.mpr hD)] at hr
      exact mem_mpa_norm_out D ci.mpa r hr
  · intro hD
    unfold write_normalized_tables
    rw [if_pos hD]
  · intro fi cr hprim hok
    unfold main_run
    rw [hok]
    show Except.ok (filtering_summary fi ++ cr,
        write_normalized_tables (primary_of fi) ci) = _
    unfold write_normalized_tables
    rw [if_pos hprim]

/-- Witness for C3 with denominator 0 and no classifier inputs. -/
theorem c3_normalizer_scaling_witness :
    write_normalized_tables 0 ⟨none, none, none⟩ = ⟨none, none⟩
    ∧ main_run empty_filter_inputs ⟨none, none, none⟩
        = .ok (filtering_summary empty_filter_inputs ++ [], ⟨none, none⟩) := by
  have h := c3_normalizer_scaling 0 ⟨none, none, none⟩
  exact ⟨h.2.1 (by norm_num), h.2.2 empty_filter_inputs [] (by decide) (by decide)⟩

/-- C5 counterexample: with a malformed (4-column) first-classifier report
and a perfectly well-formed second-classifier report present,
`summarize_classification` does not return the second classifier's counters
or anything else — the `ValueError` escapes (only `FileNotFoundError` is
caught there) and the whole invocation fails fatally in `main`. -/
theorem c5_malformed_counterexample :
    summarize_classification ⟨some ["x\ty\tz\tw"], none, some ["k__Bacteria\t2\t50.0\t0.1\t9"]⟩
        = .error (.valueError "Malformed Kraken2 report")
    ∧ main_run empty_filter_inputs
        ⟨some ["x\ty\tz\tw"], none, some ["k__Bacteria\t2\t50.0\t0.1\t9"]⟩
        = .error (.valueError "Malformed Kraken2 report") := by
  exact ⟨by decide, by decide⟩

/-- C5 (amended): a classifier report that exists but is malformed makes
`summarize_classification` propagate the parse error — the other
classifier's counters and the filtering summary are not returned — and the
top level turns it into a fatal failure of the whole invocation; only the
normalization step recovers per classifier. -/
theorem c5_amended_malformed_fatal (fi : FilterInputs) (ci : ClassifInputs) (e : String) :
    (merge_kraken_reports ci.paired ci.unpaired = .error (.valueError e) →
        summarize_classification ci = .error (.valueError e)
        ∧ main_run fi ci = .error (.valueError e))
    ∧ (∀ f, ci.mpa = some f →
        ((∃ df, merge_kraken_reports ci.paired ci.unpaired = .ok df)
          ∨ merge_kraken_reports ci.paired ci.unpaired = .error .fileNotFound) →
        load_metaphlan_table f = .error (.runtimeError e) →
        summarize_classification ci = .error (.runtimeError e)
        ∧ main_run fi ci = .error (.runtimeError e))
    ∧ ∀ D : ℤ, 0 < D → merge_kraken_reports ci.paired ci.unpaired = .error (.valueError e) →
        (write_normalized_tables D ci).kraken = none
        ∧ (write_normalized_tables D ci).mpa = mpa_norm_out D ci.mpa := by
  refine ⟨?_, ?_, ?_⟩
  · intro hm
    have hs : summarize_classification ci = .error (.valueError e) := by
      unfold summarize_classification
      rw [hm]
      rfl
    refine ⟨hs, ?_⟩
    unfold main_run
    rw [hs]
    rfl
  · intro f hf hk hload
    have hs : summarize_classification ci = .error (.runtimeError e) := by
      unfold summarize_classification
      rcases hk with ⟨df, hok⟩ | hnf
      · rw [hok]
        show (mpa_summary_keys ci.mpa).bind _ = _
        rw [hf]
        simp only [mpa_summary_keys]
        rw [hload]
        rfl
      · rw [hnf]
        show (mpa_summary_keys ci.mpa).bind _ = _
        rw [hf]
        simp only [mpa_summary_keys]
        rw [hload]
        rfl
    refine ⟨hs, ?_⟩
    unfold main_run
    rw [hs]
    rfl
  · intro D hD hm
    unfold write_normalized_tables
    rw [if_neg (not_le.mpr hD)]
    refine ⟨?_, rfl⟩
    show kraken_norm_out D ci.paired ci.unpaired = none
    rcases hp : ci.paired with _ | pf
    · rcases hu : ci.unpaired with _ | uf
      · rfl
      · simp only [kraken_norm_out]
        rw [← hp, ← hu, hm]
    · simp only [kraken_norm_out]
      rw [← hp, hm]

/-- Witness for the amended C5 at a concrete malformed paired report. -/
theorem c5_amended_malformed_fatal_witness :
    main_run empty_filter_inputs ⟨some ["a\tb\tc\td"], none, none⟩
      = .error (.valueError "Malformed Kraken2 report") := by
  exact ((c5_amended_malformed_fatal empty_filter_inputs ⟨some ["a\tb\tc\td"], none, none⟩
    "Malformed Kraken2 report").1 (by decide)).2
